import Mathlib

/-!
Verification of the libhal/llvm-toolchain demo sources.

The repository holds four small C++ files:
  * `demos/cpp-modules/stdio_polyfill.cpp` — under `#if defined(__ARM_EABI__)`,
    defines `FILE* const stderr = nullptr;`, `FILE* const stdout = nullptr;`,
    `extern "C" void _exit(int)` (an unconditional `while (true) continue;`
    loop) and `extern "C" int isatty(int)` (returns `1`).
  * `demos/cpp/stdio_polyfill.cpp` — under the same guard, defines only the
    two stream-handle constants.
  * `demos/cpp/main.cpp` — four `std::puts` calls, `return 0`.
  * `all/test_package/main.cpp` — `a = 5`, `b = 12`, `c = a + b`, one
    `std::puts` and two `std::printf` calls, `return 0`.

The shallow embedding below translates these definitions; the shim's state
(the two stream handles and the accumulated standard output) is passed
explicitly, and the preprocessor guard becomes a `Bool` parameter.
-/

namespace LlvmToolchain

/-! ### The `_exit` shim (demos/cpp-modules/stdio_polyfill.cpp, lines 10–15)

`void _exit(int) { while (true) { continue; } }`

Small-step model: an execution state is either "inside the loop" or
"returned to the caller"; one step evaluates the loop guard and either
re-enters the body (`continue`) or falls through to the function return. -/

/-- The loop guard of the `while` statement in `_exit`: the literal `true`. -/
def exitLoopCond : Bool := true

/-- Execution state of a call to `_exit`: still inside the `while` loop, or
control returned to the caller past the end of the function body. -/
inductive ExitState where
  | inLoop
  | returned
deriving DecidableEq, Repr

/-- One small step of `_exit`: from inside the loop, evaluate the guard; if it
holds, `continue` back to the loop head, otherwise fall through and return.
A returned state stays returned. -/
def exitStep : ExitState → ExitState
  | .inLoop => if exitLoopCond then .inLoop else .returned
  | .returned => .returned

/-- Run `_exit arg` for `n` small steps from its entry state.  The integer
argument is unused in the source (`void _exit(int)` with an unnamed
parameter), and the function body starts at the loop head. -/
def exitRun (_arg : Int) (n : Nat) : ExitState :=
  Nat.rec ExitState.inLoop (fun _ s => exitStep s) n

/-! ### The `isatty` shim (demos/cpp-modules/stdio_polyfill.cpp, lines 16–19)

`int isatty(int) { return 1; }` -/

/-- The `isatty` shim: ignores its file-descriptor argument and returns `1`. -/
def isatty (_fd : Int) : Int := 1

/-! ### Symbols exported by the two polyfill translation units

The preprocessor guard `#if defined(__ARM_EABI__)` becomes a `Bool`
parameter: when it holds, the unit defines the listed symbols in source
order; otherwise the unit is empty. -/

/-- Symbols defined by `demos/cpp-modules/stdio_polyfill.cpp` as a function of
whether `__ARM_EABI__` is defined: `stderr`, `stdout`, `_exit`, `isatty`
inside the guard, nothing outside it. -/
def stdioPolyfillSymbols (armEabi : Bool) : List String :=
  if armEabi then ["stderr", "stdout", "_exit", "isatty"] else []

/-- Symbols defined by `demos/cpp/stdio_polyfill.cpp` as a function of whether
`__ARM_EABI__` is defined: only the two stream-handle constants inside the
guard, nothing outside it. -/
def cppPolyfillSymbols (armEabi : Bool) : List String :=
  if armEabi then ["stderr", "stdout"] else []

/-! ### The stream handles and the shim's runtime state

`FILE* const stderr = nullptr;` and `FILE* const stdout = nullptr;` — a
`FILE*` is modelled as `Option Unit` (`none` is the null pointer).  The
program state carries the two handles and the accumulated standard output. -/

/-- Runtime state of a shimmed program: the two stream handles (null
placeholders) and the bytes written to standard output so far. -/
structure ShimState where
  stdoutHandle : Option Unit
  stderrHandle : Option Unit
  out : String
deriving DecidableEq, Repr

/-- Static initialization of the polyfill translation unit: both handles are
defined once, as null, with no output yet produced. -/
def initState : ShimState :=
  { stdoutHandle := none, stderrHandle := none, out := "" }

/-! ### `puts` and `printf` output

`std::puts` writes its argument followed by a newline.  `std::printf` with
the formats used here (`%d` only) substitutes the decimal rendering of each
integer argument for each `%d` in order. -/

/-- Output text of `std::puts s`: the string followed by a newline. -/
def putsOut (s : String) : String := s ++ "\n"

/-- Render a `printf` format (restricted to the `%d` conversions the sources
use) against a list of integer arguments, character by character. -/
def printfChars : List Char → List Int → List Char
  | [], _ => []
  | '%' :: 'd' :: rest, a :: as => (toString a).toList ++ printfChars rest as
  | c :: rest, as => c :: printfChars rest as

/-- Output text of `std::printf fmt args` for the formats used here. -/
def printfOut (fmt : String) (args : List Int) : String :=
  String.mk (printfChars fmt.toList args)

/-! ### Operations a shimmed program can perform

The demo programs call `puts`, `printf` and (on the bare-metal target)
`isatty`, and may sit in the `_exit` loop.  None of these statements
assigns to `stdout` or `stderr` — both are `const` in the source. -/

/-- One runtime operation of the demo programs / shim. -/
inductive Op where
  | puts (s : String)
  | printf (fmt : String) (args : List Int)
  | isattyCall (fd : Int)
  | exitLoopIteration
deriving Repr

/-- Effect of one operation on the program state, translated statement by
statement: the print calls append to standard output, `isatty` and an
`_exit` loop iteration leave the state unchanged; no operation assigns to
either stream handle. -/
def runOp (o : Op) (st : ShimState) : ShimState :=
  match o with
  | .puts s => { st with out := st.out ++ putsOut s }
  | .printf fmt args => { st with out := st.out ++ printfOut fmt args }
  | .isattyCall _ => st
  | .exitLoopIteration => st

/-- Run a sequence of operations from a starting state. -/
def runOps (ops : List Op) (st : ShimState) : ShimState :=
  ops.foldl (fun s o => runOp o s) st

/-- Error-aware runner for the shim operations, translated branch by branch
from the source: every branch is a fixed-behavior stub with no error result
and no error branch, so every branch yields `Except.ok`. -/
def runOpE (o : Op) (st : ShimState) : Except String ShimState :=
  match o with
  | .puts s => .ok { st with out := st.out ++ putsOut s }
  | .printf fmt args => .ok { st with out := st.out ++ printfOut fmt args }
  | .isattyCall _ => .ok st
  | .exitLoopIteration => .ok st

/-! ### The test_package demo (all/test_package/main.cpp, lines 9–21) -/

/-- Local `int a = 5;` of the test_package `main`. -/
def testPackageA : Int := 5

/-- Local `int b = 12;` of the test_package `main`. -/
def testPackageB : Int := 12

/-- Local `int c = a + b;` of the test_package `main`. -/
def testPackageC : Int := testPackageA + testPackageB

/-- The statements of the test_package `main` body, in order. -/
def testPackageOps : List Op :=
  [ .puts "Hello, world!",
    .printf "a = %d, b = %d\n" [testPackageA, testPackageB],
    .printf "a + b = c = %d\n" [testPackageC] ]

/-- Standard output produced by the test_package `main`. -/
def testPackageOutput : String :=
  (runOps testPackageOps initState).out

/-- Exit code of the test_package `main`: the returned results of
`std::puts` and `std::printf` are bound to nothing and discarded, and the
function ends with `return 0;`.  `printResult` supplies the value each of
the three print calls reports (index 0, 1, 2). -/
def testPackageExit (printResult : Nat → Int) : Int :=
  let _ := printResult 0
  let _ := printResult 1
  let _ := printResult 2
  0

/-! ### The cpp demo (demos/cpp/main.cpp, lines 9–17) -/

/-- The four string literals passed to `std::puts` by the cpp demo `main`,
in call order. -/
def cppDemoLines : List String :=
  [ "\n========== RUNNING DEMO ==========",
    "LLVM Toolchain Demo!",
    "👋 Hello, 🌐 World",
    "========== DEMO FINISHED ==========\n" ]

/-- The statements of the cpp demo `main` body: one `puts` per line. -/
def cppDemoOps : List Op := cppDemoLines.map Op.puts

/-- Standard output produced by the cpp demo `main`. -/
def cppDemoOutput : String :=
  (runOps cppDemoOps initState).out

/-- Exit code of the cpp demo `main`: `return 0;`. -/
def cppDemoExit : Int := 0

/-! ### The C-style demo variant -/

/-- Modelled from the spec: the C-style demo variant is not among the
sources here (only the C++ demos and polyfills are).  Per the spec it runs
the same computation as the non-bare-metal C++ demo — `a = 5`, `b = 12`,
`c = a + b` — produces the same textual output, and returns the computed
sum `c` as its exit code instead of `0`.  The result is the pair of the
produced standard output and the exit code. -/
def cDemoVariant : String × Int :=
  let a : Int := 5
  let b : Int := 12
  let c : Int := a + b
  ( putsOut "Hello, world!"
      ++ printfOut "a = %d, b = %d\n" [a, b]
      ++ printfOut "a + b = c = %d\n" [c],
    c )

end LlvmToolchain

namespace LlvmToolchain

/-- Claim C1: for every integer argument and every number of execution
steps, `_exit` is still inside its unconditional `while (true)` loop and
has not returned control to its caller; execution is a non-terminating
loop with no teardown. -/
theorem c1_exit_never_returns (arg : Int) (n : Nat) :
    exitRun arg n = ExitState.inLoop ∧ exitRun arg n ≠ ExitState.returned := by
  induction n with
  | zero => exact ⟨rfl, by simp [exitRun]⟩
  | succ k ih =>
    have h : exitRun arg (k + 1) = exitStep (exitRun arg k) := rfl
    rw [h, ih.1]
    exact ⟨rfl, by simp [exitStep, exitLoopCond]⟩

/-- Claim C2: for every integer input, the shim's `isatty` returns the
fixed truthy value `1`, and its output is constant across all inputs. -/
theorem c2_isatty_constant_one :
    (∀ fd : Int, isatty fd = 1) ∧ (∀ m n : Int, isatty m = isatty n) :=
  ⟨fun _ => rfl, fun _ _ => rfl⟩

/-- Claim C3: the test_package `main` with `a = 5` and `b = 12` produces
standard output exactly `"Hello, world!\na = 5, b = 12\na + b = c = 17\n"`
and exits with code `0` whatever the print calls report, and the printed
value `c` equals `a + b`. -/
theorem c3_test_package_output :
    testPackageOutput = "Hello, world!\na = 5, b = 12\na + b = c = 17\n" ∧
    (∀ printResult : Nat → Int, testPackageExit printResult = 0) ∧
    testPackageC = testPackageA + testPackageB := by
  refine ⟨by decide, fun _ => rfl, rfl⟩

/-- Claim C4: the C-style demo variant (modelled from the spec; it is
absent from the sources here), with the same inputs `a = 5` and `b = 12`,
produces the same textual output as the C++ test_package demo but exits
with code `17`, the computed sum `a + b`, instead of `0`. -/
theorem c4_c_variant_exit_is_sum :
    cDemoVariant.1 = testPackageOutput ∧
    cDemoVariant.2 = 17 ∧ cDemoVariant.2 = 5 + 12 ∧
    (∀ printResult : Nat → Int, cDemoVariant.2 ≠ testPackageExit printResult) := by
  refine ⟨by decide, rfl, rfl, fun _ => show (17 : Int) ≠ 0 by decide⟩

/-- Claim C5 counterexample: with `__ARM_EABI__` defined, the
cpp-modules polyfill defines four symbols (`stderr`, `stdout`, `_exit`,
`isatty`), not exactly three as claimed. -/
theorem c5_counterexample_four_symbols :
    ¬ ((stdioPolyfillSymbols true).length = 3) := by decide

/-- Claim C5 (amended): for any build where `__ARM_EABI__` is defined, the
cpp-modules shim exposes exactly four symbols to the link, all present:
the two stream-handle constants `stderr` and `stdout` and the two runtime
functions `_exit` and `isatty`. -/
theorem c5_shim_symbols_when_defined :
    stdioPolyfillSymbols true = ["stderr", "stdout", "_exit", "isatty"] ∧
    (stdioPolyfillSymbols true).length = 4 ∧
    "stderr" ∈ stdioPolyfillSymbols true ∧
    "stdout" ∈ stdioPolyfillSymbols true ∧
    "_exit" ∈ stdioPolyfillSymbols true ∧
    "isatty" ∈ stdioPolyfillSymbols true := by
  refine ⟨rfl, rfl, ?_, ?_, ?_, ?_⟩ <;> decide

/-- Claim C6: for any build where `__ARM_EABI__` is undefined, the shim is
entirely absent: neither polyfill translation unit defines any symbol, so
none of the stream-handle constants, `_exit` or `isatty` are present. -/
theorem c6_shim_absent_when_undefined :
    stdioPolyfillSymbols false = [] ∧ cppPolyfillSymbols false = [] ∧
    (∀ s : String, s ∉ stdioPolyfillSymbols false) ∧
    (∀ s : String, s ∉ cppPolyfillSymbols false) := by
  refine ⟨rfl, rfl, fun s h => ?_, fun s h => ?_⟩ <;> simp [stdioPolyfillSymbols, cppPolyfillSymbols] at h

/-- Claim C7: both stream handles are defined once, at static
initialization, as null placeholders, and no sequence of the program's
operations ever mutates them: after any run they are still null. -/
theorem c7_stream_handles_invariant :
    initState.stdoutHandle = none ∧ initState.stderrHandle = none ∧
    ∀ ops : List Op,
      (runOps ops initState).stdoutHandle = none ∧
      (runOps ops initState).stderrHandle = none := by
  refine ⟨rfl, rfl, fun ops => ?_⟩
  have key : ∀ (l : List Op) (st : ShimState),
      (runOps l st).stdoutHandle = st.stdoutHandle ∧
      (runOps l st).stderrHandle = st.stderrHandle := by
    intro l
    induction l with
    | nil => intro st; exact ⟨rfl, rfl⟩
    | cons o rest ih =>
      intro st
      have step : runOps (o :: rest) st = runOps rest (runOp o st) := rfl
      rw [step]
      rcases ih (runOp o st) with ⟨h1, h2⟩
      cases o <;> simp [runOp] at h1 h2 ⊢ <;> exact ⟨h1, h2⟩
  exact key ops initState

/-- Claim C8: no shim operation can fail at runtime: the stream-handle
definition yields a fixed state with no error, and every operation of the
error-aware runner returns `Except.ok` on every state — each is a total
stub with no error branch. -/
theorem c8_no_failure_modes :
    (∀ (o : Op) (st : ShimState), ∃ st2, runOpE o st = Except.ok st2) ∧
    (∀ (o : Op) (st : ShimState), (runOpE o st).isOk = true) ∧
    initState.stdoutHandle = none := by
  refine ⟨fun o st => ?_, fun o st => ?_, rfl⟩ <;> cases o <;> simp [runOpE, Except.isOk, Except.toBool]

/-- Claim C9: the cpp demo `main` passes exactly four strings to `puts` —
the banner, "LLVM Toolchain Demo!", the emoji greeting, and the closing
banner — producing exactly that output with a trailing newline per call,
and always returns `0`; its output is a fixed constant containing no
digits, hence no computed sum. -/
theorem c9_cpp_demo_four_lines :
    cppDemoLines.length = 4 ∧
    cppDemoOutput =
      "\n========== RUNNING DEMO ==========\nLLVM Toolchain Demo!\n👋 Hello, 🌐 World\n========== DEMO FINISHED ==========\n\n" ∧
    cppDemoExit = 0 ∧
    cppDemoOutput.toList.all (fun c => !c.isDigit) = true := by
  refine ⟨rfl, by decide, rfl, by decide⟩

/-- Claim C10: the test_package `main` returns exit code `0`
unconditionally: the values reported by its `puts` and `printf` calls are
discarded, so even when every print call reports failure (e.g. `-1`) the
exit code is still `0`. -/
theorem c10_exit_zero_unconditional :
    (∀ printResult : Nat → Int, testPackageExit printResult = 0) ∧
    testPackageExit (fun _ => -1) = 0 :=
  ⟨fun _ => rfl, rfl⟩

end LlvmToolchain
